import Mathlib

/-
Verification of the submission/validation/result-accumulation workflow of the
gemini-frontend single-page app. The embedding below mirrors `src/App.tsx`:
the React component state is an explicit record, `handleSubmit` is a pure
state transformer over the possible fetch outcomes, and `downloadCSV` is a
pure function of the result log.
-/

namespace GeminiFrontend

/-- Models JavaScript `String.prototype.trim()` (used at App.tsx line 25):
drop whitespace from both ends. Written over the character list so it is
kernel-computable. -/
def jsTrim (s : String) : String :=
  String.mk (((s.data.dropWhile Char.isWhitespace).reverse.dropWhile Char.isWhitespace).reverse)

/-- The parsed JSON response body (`data` in App.tsx). Every field of the
backend contract is optional at runtime: `none` models the JS value
`undefined` for an absent key. -/
structure ResponseBody where
  prompt : Option String
  brand : Option String
  mentioned : Option Bool
  position : Option Int
  raw : Option String
  error : Option String
  deriving DecidableEq

/-- JS truthiness of `data.error` (App.tsx lines 44, 59, 64): an absent field
and the empty string are falsy; any other string is truthy. -/
def errTruthy (data : ResponseBody) : Bool :=
  match data.error with
  | some s => s != ""
  | none => false

/-- The `Result` interface of App.tsx. Field values are copied verbatim from
the response body by `handleSubmit`, so in the runtime they may be
`undefined` even though the TS interface declares them total; `none` models
that. -/
structure Result where
  prompt : Option String
  brand : Option String
  mentioned : Option Bool
  position : Option Int
  raw : Option String
  error : Option String
  deriving DecidableEq

/-- The component state of App.tsx: the draft input (`prompt`, `brand`), the
result log (`results`), the in-flight flag (`loading`) and the session error
banner (`error`, `none` = the JS `null`). -/
structure AppState where
  prompt : String
  brand : String
  results : List Result
  loading : Bool
  error : Option String
  deriving DecidableEq

/-- Outcome of the `fetch` + `response.json()` pair inside the `try` block:
either the promise rejects, or an HTTP response arrives (with some status)
whose body fails to parse as JSON, or an HTTP response arrives whose body
parses to a `ResponseBody`. The status code is carried so that theorems can
state what does (not) depend on it. -/
inductive FetchOutcome where
  | reject : FetchOutcome
  | jsonFailure : Nat → FetchOutcome
  | success : Nat → ResponseBody → FetchOutcome
  deriving DecidableEq

/-- App.tsx line 26. -/
def validationMsg : String := "Please fill in both prompt and brand name"

/-- App.tsx line 72. -/
def connectMsg : String := "Failed to connect to backend. Please check if the server is running."

/-- App.tsx lines 59 and 65. -/
def apiErrorFallback : String := "API Error: Service temporarily unavailable"

/-- App.tsx lines 59 and 64. -/
def apiErrorSentinel : String := "API_ERROR"

/-- The record object literal appended at App.tsx lines 53-60: every data
field is copied verbatim from the body; `error` is
`data.error || (data.raw === 'API_ERROR' ? fallback : undefined)`. -/
def mkRecord (data : ResponseBody) : Result :=
  { prompt := data.prompt
    brand := data.brand
    mentioned := data.mentioned
    position := data.position
    raw := data.raw
    error :=
      if errTruthy data then data.error
      else if data.raw = some apiErrorSentinel then some apiErrorFallback
      else none }

/-- `handleSubmit` of App.tsx (lines 22-77) as a pure state transformer.
The returned `Nat` counts the backend calls issued (0 or 1). The branches
mirror the source: validation guard (line 25), `setLoading(true)` and
`setError(null)` (lines 30-31), the catch block for transport failures
(lines 71-76), the early return on a truthy `data.error` (lines 44-48), the
append (lines 51-61), the banner update (lines 63-66), the form clear
(lines 68-70) and the `finally` `setLoading(false)` (line 75). -/
def handleSubmit (s : AppState) (outcome : FetchOutcome) : AppState × Nat :=
  if jsTrim s.prompt = "" ∨ jsTrim s.brand = "" then
    ({ s with error := some validationMsg }, 0)
  else
    let s1 : AppState := { s with loading := true, error := none }
    match outcome with
    | FetchOutcome.reject =>
        ({ s1 with error := some connectMsg, loading := false }, 1)
    | FetchOutcome.jsonFailure _ =>
        ({ s1 with error := some connectMsg, loading := false }, 1)
    | FetchOutcome.success _ data =>
        if errTruthy data then
          ({ s1 with error := data.error, loading := false }, 1)
        else
          let s2 : AppState := { s1 with results := s1.results ++ [mkRecord data] }
          let s3 : AppState :=
            if errTruthy data ∨ data.raw = some apiErrorSentinel then
              { s2 with error := if errTruthy data then data.error else some apiErrorFallback }
            else s2
          ({ s3 with prompt := "", brand := "", loading := false }, 1)

/-- Models the single regex replacement `/"/g → '""'` of App.tsx lines 90-91:
every double-quote character is doubled. -/
def escQuoteChars : List Char → List Char
  | [] => []
  | c :: cs => if c = '"' then '"' :: '"' :: escQuoteChars cs else c :: escQuoteChars cs

/-- `"${field.replace(/"/g, '""')}"` of App.tsx lines 90-91. -/
def escapeCSV (s : String) : String :=
  "\"" ++ String.mk (escQuoteChars s.data) ++ "\""

/-- Result of `downloadCSV`: the empty-log alert (no file), a produced CSV
document, or a runtime TypeError (a record field needed by the row mapping
was `undefined`). -/
inductive CsvOutcome where
  | noFile : CsvOutcome
  | file : String → CsvOutcome
  | jsError : CsvOutcome
  deriving DecidableEq

/-- One row of the CSV (App.tsx lines 89-95). `result.prompt.replace`,
`result.brand.replace` and `result.position.toString()` throw when the field
is `undefined` (modelled by `none`); `result.mentioned ? 'Yes' : 'No'` treats
`undefined` as falsy and cannot throw. -/
def csvRow (r : Result) : Option String :=
  match r.prompt, r.brand, r.position with
  | some p, some b, some pos =>
      some (escapeCSV p ++ "," ++ escapeCSV b ++ ","
        ++ (if r.mentioned = some true then "Yes" else "No") ++ "," ++ toString pos)
  | _, _, _ => none

/-- `headers.join(',')` of App.tsx line 86. -/
def csvHeader : String := "Prompt,Brand,Mentioned,Position"

/-- `results.map(...)` of App.tsx lines 89-95: one row per record in log
order; a TypeError thrown by any record aborts the whole mapping. -/
def csvRows : List Result → Option (List String)
  | [] => some []
  | r :: rs =>
    match csvRow r, csvRows rs with
    | some row, some rows => some (row :: rows)
    | _, _ => none

/-- `downloadCSV` of App.tsx (lines 79-108) restricted to its observable
data behaviour: empty log → alert and no file; otherwise map each record to
a row (a TypeError aborts with no file) and join header and rows with a
newline. -/
def downloadCSV (results : List Result) : CsvOutcome :=
  if results.length = 0 then CsvOutcome.noFile
  else
    match csvRows results with
    | some rows => CsvOutcome.file (String.intercalate "\n" (csvHeader :: rows))
    | none => CsvOutcome.jsError

/- Helper lemmas: closed forms of `handleSubmit` on each branch. -/

/-- Validation failure branch (App.tsx lines 25-28). -/
theorem submit_invalid (s : AppState) (o : FetchOutcome)
    (h : jsTrim s.prompt = "" ∨ jsTrim s.brand = "") :
    handleSubmit s o = ({ s with error := some validationMsg }, 0) := by
  unfold handleSubmit
  rw [if_pos h]

/-- Promise rejection branch (App.tsx lines 71-76). -/
theorem submit_reject (s : AppState)
    (h : ¬(jsTrim s.prompt = "" ∨ jsTrim s.brand = "")) :
    handleSubmit s FetchOutcome.reject =
      ({ s with error := some connectMsg, loading := false }, 1) := by
  unfold handleSubmit
  rw [if_neg h]

/-- JSON parse failure branch, also caught at App.tsx lines 71-76. -/
theorem submit_jsonFailure (s : AppState) (st : Nat)
    (h : ¬(jsTrim s.prompt = "" ∨ jsTrim s.brand = "")) :
    handleSubmit s (FetchOutcome.jsonFailure st) =
      ({ s with error := some connectMsg, loading := false }, 1) := by
  unfold handleSubmit
  rw [if_neg h]

/-- Truthy `data.error` branch (App.tsx lines 44-48): early return before
the append and before the form clear. -/
theorem submit_backendError (s : AppState) (st : Nat) (data : ResponseBody)
    (h : ¬(jsTrim s.prompt = "" ∨ jsTrim s.brand = ""))
    (he : errTruthy data = true) :
    handleSubmit s (FetchOutcome.success st data) =
      ({ s with error := data.error, loading := false }, 1) := by
  unfold handleSubmit
  rw [if_neg h]
  simp only [he, if_true]

/-- Clean success branch (App.tsx lines 51-70): falsy `data.error` and
`data.raw` not the sentinel. -/
theorem submit_ok (s : AppState) (st : Nat) (data : ResponseBody)
    (h : ¬(jsTrim s.prompt = "" ∨ jsTrim s.brand = ""))
    (he : errTruthy data = false)
    (hr : ¬data.raw = some apiErrorSentinel) :
    handleSubmit s (FetchOutcome.success st data) =
      ({ s with results := s.results ++ [mkRecord data], error := none,
                prompt := "", brand := "", loading := false }, 1) := by
  unfold handleSubmit
  rw [if_neg h]
  simp only [he, if_false, Bool.false_eq_true]
  rw [if_neg (by simp [he, hr])]

/-- Sentinel branch (App.tsx lines 51-70 with `data.raw === 'API_ERROR'`):
falsy `data.error` but `raw` equal to the sentinel. -/
theorem submit_mentionError (s : AppState) (st : Nat) (data : ResponseBody)
    (h : ¬(jsTrim s.prompt = "" ∨ jsTrim s.brand = ""))
    (he : errTruthy data = false)
    (hr : data.raw = some apiErrorSentinel) :
    handleSubmit s (FetchOutcome.success st data) =
      ({ s with results := s.results ++ [mkRecord data], error := some apiErrorFallback,
                prompt := "", brand := "", loading := false }, 1) := by
  unfold handleSubmit
  rw [if_neg h]
  simp only [he, if_false, Bool.false_eq_true]
  rw [if_pos (Or.inr hr)]

/-- C2: when both trimmed draft fields are non-empty, `handleSubmit` issues
exactly one backend call; when either is empty it issues zero calls, leaves
the result log unchanged, sets the banner to the single combined notice,
preserves the draft input, and never invokes the pipeline (the resulting
state does not depend on the would-be fetch outcome). -/
theorem claim2_validation_gate (s : AppState) (o : FetchOutcome) :
    (¬(jsTrim s.prompt = "" ∨ jsTrim s.brand = "") → (handleSubmit s o).2 = 1) ∧
    ((jsTrim s.prompt = "" ∨ jsTrim s.brand = "") →
      (handleSubmit s o).2 = 0 ∧
      (handleSubmit s o).1.results = s.results ∧
      (handleSubmit s o).1.error = some validationMsg ∧
      (handleSubmit s o).1.prompt = s.prompt ∧
      (handleSubmit s o).1.brand = s.brand ∧
      ∀ o2 : FetchOutcome, handleSubmit s o2 = handleSubmit s o) := by
  constructor
  · intro h
    cases o with
    | reject => rw [submit_reject s h]
    | jsonFailure st => rw [submit_jsonFailure s st h]
    | success st data =>
      cases he : errTruthy data with
      | true => rw [submit_backendError s st data h he]
      | false =>
        by_cases hr : data.raw = some apiErrorSentinel
        · rw [submit_mentionError s st data h he hr]
        · rw [submit_ok s st data h he hr]
  · intro h
    rw [submit_invalid s o h]
    refine ⟨rfl, rfl, rfl, rfl, rfl, fun o2 => ?_⟩
    rw [submit_invalid s o2 h]

/-- C2 witness: with draft `("Best CRM?", "Acme")` a submission issues one
call; with an empty prompt it issues zero calls. -/
theorem claim2_validation_gate_witness :
    (handleSubmit ⟨"Best CRM?", "Acme", [], false, none⟩ FetchOutcome.reject).2 = 1 ∧
    (handleSubmit ⟨"", "Acme", [], false, none⟩ FetchOutcome.reject).2 = 0 :=
  ⟨(claim2_validation_gate ⟨"Best CRM?", "Acme", [], false, none⟩ FetchOutcome.reject).1
      (by decide),
   ((claim2_validation_gate ⟨"", "Acme", [], false, none⟩ FetchOutcome.reject).2
      (Or.inl (by decide))).1⟩

/-- C1 counterexample: the claim asserts the DraftInput is cleared after a
BackendError outcome. On a valid draft `("Best CRM?", "Acme")` and body
`{error: "rate limited"}` the code returns before the form-clear lines, so
the draft is NOT cleared. -/
theorem claim1_cex :
    ¬((handleSubmit ⟨"Best CRM?", "Acme", [], false, none⟩
         (FetchOutcome.success 200 ⟨none, none, none, none, none, some "rate limited"⟩)).1.prompt = "" ∧
      (handleSubmit ⟨"Best CRM?", "Acme", [], false, none⟩
         (FetchOutcome.success 200 ⟨none, none, none, none, none, some "rate limited"⟩)).1.brand = "") := by
  decide

/-- C1 (amended): for every submission attempt whose parsed response body
carries a non-empty `error` field (BackendError), the DraftInput is
preserved, not cleared: both fields keep their pre-submit values when the
attempt resolves. -/
theorem claim1_backendError_draft (s : AppState) (st : Nat) (data : ResponseBody)
    (hv : ¬(jsTrim s.prompt = "" ∨ jsTrim s.brand = ""))
    (he : errTruthy data = true) :
    (handleSubmit s (FetchOutcome.success st data)).1.prompt = s.prompt ∧
    (handleSubmit s (FetchOutcome.success st data)).1.brand = s.brand := by
  rw [submit_backendError s st data hv he]
  exact ⟨rfl, rfl⟩

/-- C1 witness: concrete BackendError attempt keeping the draft intact. -/
theorem claim1_backendError_draft_witness :
    (handleSubmit ⟨"Best CRM?", "Acme", [], false, none⟩
       (FetchOutcome.success 200 ⟨none, none, none, none, none, some "rate limited"⟩)).1.prompt
      = "Best CRM?" :=
  (claim1_backendError_draft ⟨"Best CRM?", "Acme", [], false, none⟩ 200
      ⟨none, none, none, none, none, some "rate limited"⟩ (by decide) (by decide)).1

/-- C3: on a Success outcome (falsy `error`, `raw` not the sentinel) exactly
one record is appended, its `error` field is unset, its `prompt` and `brand`
come from the response body, the banner ends cleared, and the draft input is
cleared. -/
theorem claim3_success_outcome (s : AppState) (st : Nat) (data : ResponseBody)
    (hv : ¬(jsTrim s.prompt = "" ∨ jsTrim s.brand = ""))
    (he : errTruthy data = false)
    (hr : ¬data.raw = some apiErrorSentinel) :
    (handleSubmit s (FetchOutcome.success st data)).1.results
        = s.results ++ [mkRecord data] ∧
    (mkRecord data).error = none ∧
    (mkRecord data).prompt = data.prompt ∧
    (mkRecord data).brand = data.brand ∧
    (handleSubmit s (FetchOutcome.success st data)).1.error = none ∧
    (handleSubmit s (FetchOutcome.success st data)).1.prompt = "" ∧
    (handleSubmit s (FetchOutcome.success st data)).1.brand = "" := by
  rw [submit_ok s st data hv he hr]
  refine ⟨rfl, ?_, rfl, rfl, rfl, rfl, rfl⟩
  simp [mkRecord, he, hr]

/-- C3 witness: Scenario A of the spec. -/
theorem claim3_success_outcome_witness :
    (handleSubmit ⟨"Best CRM?", "Acme", [], false, none⟩
       (FetchOutcome.success 200
         ⟨some "Best CRM?", some "Acme", some true, some 3, none, none⟩)).1.results
      = [mkRecord ⟨some "Best CRM?", some "Acme", some true, some 3, none, none⟩] :=
  (claim3_success_outcome ⟨"Best CRM?", "Acme", [], false, none⟩ 200
      ⟨some "Best CRM?", some "Acme", some true, some 3, none, none⟩
      (by decide) (by decide) (by decide)).1

/-- C4: a non-empty `error` field takes precedence over the `raw` sentinel:
whenever `error` is truthy (no matter what `raw` holds, the sentinel
included) no record is appended and the banner is set to exactly that
message. -/
theorem claim4_error_precedence (s : AppState) (st : Nat) (data : ResponseBody)
    (hv : ¬(jsTrim s.prompt = "" ∨ jsTrim s.brand = ""))
    (he : errTruthy data = true) :
    (handleSubmit s (FetchOutcome.success st data)).1.results = s.results ∧
    (handleSubmit s (FetchOutcome.success st data)).1.error = data.error := by
  rw [submit_backendError s st data hv he]
  exact ⟨rfl, rfl⟩

/-- C4 witness: body with both `error = "quota"` and `raw = "API_ERROR"`:
log unchanged, banner exactly `"quota"`. -/
theorem claim4_error_precedence_witness :
    (handleSubmit ⟨"Best CRM?", "Acme", [], false, none⟩
       (FetchOutcome.success 200
         ⟨none, none, none, none, some "API_ERROR", some "quota"⟩)).1.results = [] ∧
    (handleSubmit ⟨"Best CRM?", "Acme", [], false, none⟩
       (FetchOutcome.success 200
         ⟨none, none, none, none, some "API_ERROR", some "quota"⟩)).1.error = some "quota" :=
  claim4_error_precedence ⟨"Best CRM?", "Acme", [], false, none⟩ 200
    ⟨none, none, none, none, some "API_ERROR", some "quota"⟩ (by decide) (by decide)

/-- C5: on a MentionError outcome (falsy `error`, `raw` equal to the
sentinel) exactly one record is appended whose `error` field is the fixed
fallback message, and the banner is set to that same message. -/
theorem claim5_mention_error (s : AppState) (st : Nat) (data : ResponseBody)
    (hv : ¬(jsTrim s.prompt = "" ∨ jsTrim s.brand = ""))
    (he : errTruthy data = false)
    (hr : data.raw = some apiErrorSentinel) :
    (handleSubmit s (FetchOutcome.success st data)).1.results
        = s.results ++ [mkRecord data] ∧
    (mkRecord data).error = some apiErrorFallback ∧
    apiErrorFallback = "API Error: Service temporarily unavailable" ∧
    (handleSubmit s (FetchOutcome.success st data)).1.error = some apiErrorFallback := by
  rw [submit_mentionError s st data hv he hr]
  refine ⟨rfl, ?_, rfl, rfl⟩
  simp [mkRecord, he, hr]

/-- C5 witness: Scenario C of the spec. -/
theorem claim5_mention_error_witness :
    (handleSubmit ⟨"p", "b", [], false, none⟩
       (FetchOutcome.success 200
         ⟨some "p", some "b", some false, some 0, some "API_ERROR", none⟩)).1.error
      = some "API Error: Service temporarily unavailable" :=
  (claim5_mention_error ⟨"p", "b", [], false, none⟩ 200
      ⟨some "p", some "b", some false, some 0, some "API_ERROR", none⟩
      (by decide) (by decide) (by decide)).2.2.2

/-- C6: on a transport-level failure (fetch rejects, or the body is not
JSON) no record is appended, the banner is the fixed connectivity message,
and the draft keeps its pre-submit values. -/
theorem claim6_transport_failure (s : AppState) (st : Nat)
    (hv : ¬(jsTrim s.prompt = "" ∨ jsTrim s.brand = "")) :
    ((handleSubmit s FetchOutcome.reject).1.results = s.results ∧
     (handleSubmit s FetchOutcome.reject).1.error = some connectMsg ∧
     (handleSubmit s FetchOutcome.reject).1.prompt = s.prompt ∧
     (handleSubmit s FetchOutcome.reject).1.brand = s.brand) ∧
    ((handleSubmit s (FetchOutcome.jsonFailure st)).1.results = s.results ∧
     (handleSubmit s (FetchOutcome.jsonFailure st)).1.error = some connectMsg ∧
     (handleSubmit s (FetchOutcome.jsonFailure st)).1.prompt = s.prompt ∧
     (handleSubmit s (FetchOutcome.jsonFailure st)).1.brand = s.brand) := by
  rw [submit_reject s hv, submit_jsonFailure s st hv]
  exact ⟨⟨rfl, rfl, rfl, rfl⟩, ⟨rfl, rfl, rfl, rfl⟩⟩

/-- C6 witness: Scenario D at a concrete state. -/
theorem claim6_transport_failure_witness :
    (handleSubmit ⟨"Best CRM?", "Acme", [], false, none⟩ FetchOutcome.reject).1.prompt
      = "Best CRM?" :=
  (claim6_transport_failure ⟨"Best CRM?", "Acme", [], false, none⟩ 500 (by decide)).1.2.2.1

/-- Helper: the row mapping is total on a log whose records all carry a
prompt, a brand and a position. -/
theorem csvRows_total (log : List Result)
    (h : ∀ r ∈ log, (∃ p, r.prompt = some p) ∧ (∃ b, r.brand = some b) ∧
          (∃ q, r.position = some q)) :
    ∃ rows, csvRows log = some rows := by
  induction log with
  | nil => exact ⟨[], rfl⟩
  | cons r t ih =>
    obtain ⟨⟨p, hp⟩, ⟨b, hb⟩, ⟨q, hq⟩⟩ := h r (List.mem_cons_self r t)
    obtain ⟨rows, hrows⟩ := ih (fun x hx => h x (List.mem_cons_of_mem r hx))
    have hrow : csvRow r = some (escapeCSV p ++ "," ++ escapeCSV b ++ ","
        ++ (if r.mentioned = some true then "Yes" else "No") ++ "," ++ toString q) := by
      unfold csvRow
      rw [hp, hb, hq]
    refine ⟨(escapeCSV p ++ "," ++ escapeCSV b ++ ","
        ++ (if r.mentioned = some true then "Yes" else "No") ++ "," ++ toString q) :: rows, ?_⟩
    simp [csvRows, hrow, hrows]

/-- C7: an empty log yields the no-op notice and no file; a non-empty log
yields the header `Prompt,Brand,Mentioned,Position` followed by one row per
record in log order, with `Prompt`/`Brand` double-quoted and internal quotes
doubled, `Mentioned` rendered `Yes`/`No`, and `Position` rendered as its
decimal integer value verbatim (non-positive sentinels included). The last
two conjuncts evaluate the export on concrete logs, one containing the brand
`Ac"me` and one containing positions `0` and `-1`. -/
theorem claim7_csv_export :
    downloadCSV [] = CsvOutcome.noFile ∧
    (∀ log rows, log ≠ [] → csvRows log = some rows →
      downloadCSV log = CsvOutcome.file (String.intercalate "\n" (csvHeader :: rows))) ∧
    (∀ (r : Result) (p b : String) (m : Bool) (pos : Int),
      r.prompt = some p → r.brand = some b → r.mentioned = some m → r.position = some pos →
      csvRow r = some (escapeCSV p ++ "," ++ escapeCSV b ++ ","
        ++ (if m then "Yes" else "No") ++ "," ++ toString pos)) ∧
    downloadCSV [⟨some "Best CRM?", some "Ac\"me", some true, some 3, none, none⟩,
                 ⟨some "p", some "b", some false, some 0, none, none⟩]
      = CsvOutcome.file
          "Prompt,Brand,Mentioned,Position\n\"Best CRM?\",\"Ac\"\"me\",Yes,3\n\"p\",\"b\",No,0" ∧
    downloadCSV [⟨some "q", some "b", some false, some (-1), none, none⟩]
      = CsvOutcome.file "Prompt,Brand,Mentioned,Position\n\"q\",\"b\",No,-1" := by
  refine ⟨rfl, ?_, ?_, by decide, by decide⟩
  · intro log rows hne hmap
    unfold downloadCSV
    rw [if_neg (by simp [List.length_eq_zero, hne]), hmap]
  · intro r p b m pos hp hb hm hpos
    unfold csvRow
    rw [hp, hb, hpos, hm]
    cases m <;> simp

/-- C7 witness: a concrete one-record log exported through the general
conjunct. -/
theorem claim7_csv_export_witness :
    downloadCSV [⟨some "x", some "y", some true, some 2, none, none⟩]
      = CsvOutcome.file "Prompt,Brand,Mentioned,Position\n\"x\",\"y\",Yes,2" :=
  (claim7_csv_export.2.1 [⟨some "x", some "y", some true, some 2, none, none⟩]
      ["\"x\",\"y\",Yes,2"] (by decide) (by decide)).trans (by decide)

/-- C8: the result log is append-only. Every `handleSubmit` path
(validation failure, transport failure, backend error, mention error,
success) either leaves the log unchanged or appends exactly one record at
its end; `downloadCSV` is a pure function of the log and cannot modify it.
Existing records are never mutated, removed or reordered: the old log is
always a prefix of the new one. -/
theorem claim8_append_only (s : AppState) (o : FetchOutcome) :
    (handleSubmit s o).1.results = s.results ∨
    ∃ r : Result, (handleSubmit s o).1.results = s.results ++ [r] := by
  by_cases hv : jsTrim s.prompt = "" ∨ jsTrim s.brand = ""
  · rw [submit_invalid s o hv]
    exact Or.inl rfl
  · cases o with
    | reject =>
      rw [submit_reject s hv]
      exact Or.inl rfl
    | jsonFailure st =>
      rw [submit_jsonFailure s st hv]
      exact Or.inl rfl
    | success st data =>
      cases he : errTruthy data with
      | true =>
        rw [submit_backendError s st data hv he]
        exact Or.inl rfl
      | false =>
        by_cases hr : data.raw = some apiErrorSentinel
        · rw [submit_mentionError s st data hv he hr]
          exact Or.inr ⟨mkRecord data, rfl⟩
        · rw [submit_ok s st data hv he hr]
          exact Or.inr ⟨mkRecord data, rfl⟩

/-- C9: outcome classification never inspects the HTTP status code. For a
parsed body the resulting state is the same at any two statuses; a non-2xx
status (500) with a clean body still appends a record (classified Success),
while a non-2xx response whose body is not JSON lands in the transport
branch. -/
theorem claim9_status_ignored (s : AppState) (st st2 : Nat) (body : ResponseBody)
    (hv : ¬(jsTrim s.prompt = "" ∨ jsTrim s.brand = "")) :
    handleSubmit s (FetchOutcome.success st body)
        = handleSubmit s (FetchOutcome.success st2 body) ∧
    handleSubmit s (FetchOutcome.jsonFailure st)
        = handleSubmit s (FetchOutcome.jsonFailure st2) ∧
    (errTruthy body = false → ¬body.raw = some apiErrorSentinel →
      (handleSubmit s (FetchOutcome.success 500 body)).1.results
        = s.results ++ [mkRecord body]) ∧
    ((handleSubmit s (FetchOutcome.jsonFailure 500)).1.results = s.results ∧
     (handleSubmit s (FetchOutcome.jsonFailure 500)).1.error = some connectMsg) := by
  refine ⟨rfl, rfl, ?_, ?_⟩
  · intro he hr
    rw [submit_ok s 500 body hv he hr]
  · rw [submit_jsonFailure s 500 hv]
    exact ⟨rfl, rfl⟩

/-- C9 witness: a status-500 response with a clean JSON body appends a
record exactly as a status-200 one would. -/
theorem claim9_status_ignored_witness :
    (handleSubmit ⟨"Best CRM?", "Acme", [], false, none⟩
       (FetchOutcome.success 500
         ⟨some "Best CRM?", some "Acme", some true, some 3, none, none⟩)).1.results
      = [mkRecord ⟨some "Best CRM?", some "Acme", some true, some 3, none, none⟩] :=
  (claim9_status_ignored ⟨"Best CRM?", "Acme", [], false, none⟩ 500 200
      ⟨some "Best CRM?", some "Acme", some true, some 3, none, none⟩
      (by decide)).2.2.1 (by decide) (by decide)

/-- C10: the append path performs no shape validation: any body whose
`error` is falsy and whose `raw` is not the sentinel is appended with
`prompt`, `brand`, `mentioned` and `position` copied verbatim, the empty
body `\x7b\x7d` included (all fields `undefined`). `downloadCSV` then throws
on such a record, and is total exactly when every record carries a prompt,
a brand and a position. -/
theorem claim10_no_shape_validation (s : AppState) (st : Nat) (body : ResponseBody)
    (hv : ¬(jsTrim s.prompt = "" ∨ jsTrim s.brand = ""))
    (he : errTruthy body = false)
    (hr : ¬body.raw = some apiErrorSentinel) :
    (handleSubmit s (FetchOutcome.success st body)).1.results
        = s.results ++ [{ prompt := body.prompt, brand := body.brand,
                          mentioned := body.mentioned, position := body.position,
                          raw := body.raw, error := none }] ∧
    (handleSubmit s (FetchOutcome.success st ⟨none, none, none, none, none, none⟩)).1.results
        = s.results ++ [⟨none, none, none, none, none, none⟩] ∧
    downloadCSV [⟨none, none, none, none, none, none⟩] = CsvOutcome.jsError ∧
    (∀ log : List Result, log ≠ [] →
      (∀ r ∈ log, (∃ p, r.prompt = some p) ∧ (∃ b, r.brand = some b) ∧
        (∃ q, r.position = some q)) →
      downloadCSV log ≠ CsvOutcome.jsError) := by
  refine ⟨?_, ?_, by decide, ?_⟩
  · rw [submit_ok s st body hv he hr]
    simp [mkRecord, he, hr]
  · have hmk : mkRecord ⟨none, none, none, none, none, none⟩
        = ⟨none, none, none, none, none, none⟩ := by decide
    rw [submit_ok s st ⟨none, none, none, none, none, none⟩ hv rfl (by decide), hmk]
  · intro log hne hwf
    obtain ⟨rows, hrows⟩ := csvRows_total log hwf
    unfold downloadCSV
    rw [if_neg (by simp [List.length_eq_zero, hne]), hrows]
    simp

/-- C10 witness: the record appended from the empty body makes the CSV
export throw. -/
theorem claim10_no_shape_validation_witness :
    downloadCSV [⟨none, none, none, none, none, none⟩] = CsvOutcome.jsError :=
  (claim10_no_shape_validation ⟨"p", "b", [], false, none⟩ 200
      ⟨some "x", some "y", none, none, none, none⟩
      (by decide) (by decide) (by decide)).2.2.1

end GeminiFrontend
